import Mathlib

/-!
Verification development for the school-management backend
(session-based authentication layer and hierarchical reference
resolution).  The definitions below are a shallow embedding of the
JavaScript source in `helper.js` (the deployed app variant): pure
functions become Lean functions, the Firestore document store becomes
explicit association lists threaded through each operation, and JS
runtime values that the code inspects dynamically become the `JSVal`
inductive.  Fallible storage calls are modelled with `Except`.
-/

/-- A JavaScript runtime value, restricted to the shapes the embedded
code actually inspects.  `vObj path` is a generic JS object whose
`path` property holds the given value (`vUndefined` when the property
is absent); `vTimestamp` is a Firestore `Timestamp` carrying its
millisecond value. -/
inductive JSVal where
  | vStr (s : String)
  | vNum (n : Int)
  | vBool (b : Bool)
  | vNull
  | vUndefined
  | vTimestamp (ms : Nat)
  | vObj (path : JSVal)
deriving DecidableEq

/-- JS truthiness of a `JSVal` (`""`, `0`, `false`, `null`,
`undefined` are falsy; every object, including a `Timestamp`, is
truthy). -/
def JSVal.truthy : JSVal → Bool
  | .vStr s => s ≠ ""
  | .vNum n => n ≠ 0
  | .vBool b => b
  | .vNull => false
  | .vUndefined => false
  | .vTimestamp _ => true
  | .vObj _ => true

/-- A JS runtime exception relevant to this code: calling a string
method on a non-string (`pathString.split is not a function`). -/
inductive JSError where
  | typeError
deriving DecidableEq

/-- `cs.splitChar sep`: the semantics of JS `String.prototype.split(sep)`
for a single-character separator, on the character list of the string
(structural recursion so the kernel can evaluate it). -/
def splitCharAux (sep : Char) : List Char → List Char → List (List Char)
  | [], acc => [acc.reverse]
  | c :: rest, acc =>
    if c = sep then acc.reverse :: splitCharAux sep rest []
    else splitCharAux sep rest (c :: acc)

/-- JS `s.split(sep)` for a one-character separator `sep`. -/
def splitChar (sep : Char) (s : String) : List String :=
  (splitCharAux sep s.data []).map (fun cs => String.mk cs)

/-- JS `s.startsWith("/")`. -/
def startsWithSlash (s : String) : Bool :=
  match s.data with
  | [] => false
  | c :: _ => c = '/'

/-- `pathString.split("/").filter((s) => s.length > 0)` from
`getParentClassRefPath`. -/
def pathSegments (pathString : String) : List String :=
  (splitChar '/' pathString).filter (fun s => decide (s ≠ ""))

/-- JS `segments.join("/")`. -/
def joinSlash : List String → String
  | [] => ""
  | [s] => s
  | s :: rest => s ++ "/" ++ joinSlash rest

/-- The segment arithmetic of `getParentClassRefPath` once a path
string has been obtained: succeed with `"/" + segments.slice(0, len-2)
.join("/")` when there are at least 5 non-empty segments and the
second-to-last is the literal `"subjects"`. -/
def getParentClassRefPathStr (pathString : String) : Option String :=
  let segments := pathSegments pathString
  if 5 ≤ segments.length ∧ segments.getD (segments.length - 2) "" = "subjects" then
    some ("/" ++ joinSlash (segments.take (segments.length - 2)))
  else
    none

/-- `getParentClassRefPath(ref)` from `helper.js` lines 8-27.  The
input dispatch follows the JS dynamic checks: a string is used only if
it starts with `"/"`; otherwise the value must be a non-null object
with a truthy `path` property.  If that `path` property is truthy but
not a string, the subsequent `pathString.split("/")` call raises a
`TypeError`, which we surface as `Except.error`. -/
def getParentClassRefPath (ref : JSVal) : Except JSError (Option String) :=
  match ref with
  | .vStr s =>
    if startsWithSlash s then .ok (getParentClassRefPathStr s)
    else .ok none
  | .vObj p =>
    if p.truthy then
      match p with
      | .vStr s => .ok (getParentClassRefPathStr s)
      | _ => .error .typeError
    else .ok none
  | _ => .ok none

/-! ### Document stores

The Firestore collaborator is modelled as association lists keyed by
document id / path, with first-match lookup, replace-or-append `set`
(full overwrite upsert) and merge `update` on the matching document.
-/

/-- `getDocument(collection, id)`: first-match lookup. -/
def getDoc {α : Type} : List (String × α) → String → Option α
  | [], _ => none
  | p :: rest, k => if p.1 = k then some p.2 else getDoc rest k

/-- `setDocument(collection, id, fields)`: upsert (replace the stored
document, or append a fresh one). -/
def setDoc {α : Type} : List (String × α) → String → α → List (String × α)
  | [], k, v => [(k, v)]
  | p :: rest, k, v => if p.1 = k then (k, v) :: rest else p :: setDoc rest k v

/-- `updateFields(collection, id, partial)`: merge `f` into the stored
document with the given key. -/
def updateDoc {α : Type} (st : List (String × α)) (k : String) (f : α → α) :
    List (String × α) :=
  st.map (fun p => if p.1 = k then (p.1, f p.2) else p)

/-- One item of a user's `enrolled_classes` array: a live
`DocumentReference` (an object with a `get` function and a `path`
string), a raw string, or any other JS value. -/
inductive RefItem where
  | docRef (path : String)
  | str (s : String)
  | other
deriving DecidableEq

/-- A user document in the `user` collection.  `enrolled_classes` is
`none` when the stored field is missing or not an array
(`Array.isArray` fails). -/
structure UserDoc where
  email : String
  password_hash : String
  is_new : JSVal
  user_role : JSVal
  school_id : JSVal
  updatedAt : JSVal
  enrolled_classes : Option (List RefItem)
deriving DecidableEq

/-- The user record with the credential field stripped, as returned by
`GET /profile` (`const { password_hash, ...safeUser } = req.user`). -/
structure SafeUser where
  email : String
  is_new : JSVal
  user_role : JSVal
  school_id : JSVal
  updatedAt : JSVal
  enrolled_classes : Option (List RefItem)
deriving DecidableEq

/-- `const { password_hash, ...safeUser } = req.user`. -/
def stripCredential (u : UserDoc) : SafeUser :=
  { email := u.email, is_new := u.is_new, user_role := u.user_role,
    school_id := u.school_id, updatedAt := u.updatedAt,
    enrolled_classes := u.enrolled_classes }

/-- A session document in the `sessions` collection, keyed by its
token.  `isActive`/`expiresAt` are kept as raw `JSVal`s because the
guard inspects them dynamically; `logoutTime` is `vUndefined` until a
logout or cleanup writes it. -/
structure SessionDoc where
  userId : String
  loginTime : JSVal
  expiresAt : JSVal
  isActive : JSVal
  logoutTime : JSVal
deriving DecidableEq

/-- The `sessions` collection (token ↦ session document). -/
abbrev SessionStore := List (String × SessionDoc)

/-- The `user` collection (user id ↦ user document). -/
abbrev UserStore := List (String × UserDoc)

/-- Arbitrary document fields for subject / class documents. -/
abbrev Fields := List (String × JSVal)

/-- The document store addressed by slash paths (subject and class
documents), as consumed by the enrollment aggregator. -/
abbrev DocStore := List (String × Fields)

/-! ### Enrollment aggregator (`fetchEnrolledClassesWithParents`) -/

/-- `snapshot.id`: the document id, i.e. the last path component. -/
def docId (path : String) : String :=
  ((pathSegments path).getLast?).getD ""

/-- The warnings `console.warn` records while aggregating. -/
inductive FetchWarning where
  | invalidRef
  | noParentPath (subjectPath : String)
  | subjectNotFound (subjectPath : String)
  | parentNotFound (parentPath : String)
deriving DecidableEq

/-- The reference-normalization step of the `forEach` in
`fetchEnrolledClassesWithParents`: a reference object is used as-is, a
string starting with `"/"` becomes `db.doc(refItem)`, anything else is
skipped.  Returns the subject path, or `none` for the
invalid-reference warning branch. -/
def resolveRef : RefItem → Option String
  | .docRef p => some p
  | .str s => if startsWithSlash s then some s else none
  | .other => none

/-- `getParentClassRefPath(subjectRef)` where `subjectRef` is a
document reference: the reference object's `path` property is a
string, so the object branch applies when the path is truthy
(non-empty). -/
def parentPathOfSubject (subjectPath : String) : Option String :=
  if subjectPath = "" then none else getParentClassRefPathStr subjectPath

/-- A surviving `(subjectPath, parentPath)` pair
(`validSubjectRefs`). -/
structure ValidRef where
  subjectPath : String
  parentPath : String
deriving DecidableEq

/-- Phase 1 of the aggregator (`enrolledRefs.forEach`): collect the
valid `(subjectPath, parentPath)` pairs in order, recording a warning
for every skipped reference. -/
def collectValidRefs : List RefItem → List ValidRef × List FetchWarning
  | [] => ([], [])
  | r :: rest =>
    let acc := collectValidRefs rest
    match resolveRef r with
    | none => (acc.1, .invalidRef :: acc.2)
    | some sp =>
      match parentPathOfSubject sp with
      | none => (acc.1, .noParentPath sp :: acc.2)
      | some pp => (⟨sp, pp⟩ :: acc.1, acc.2)

/-- A parent class embedded in an output subject
(`{ id: classSnapshot.id, ...classSnapshot.data() }`). -/
structure ClassOut where
  id : String
  fields : Fields
deriving DecidableEq

/-- One output subject (`{ id, refPath, ...subjectData, parentClass }`). -/
structure SubjectOut where
  id : String
  refPath : String
  fields : Fields
  parentClass : Option ClassOut
deriving DecidableEq

/-- Phase 2 of the aggregator: pair each valid reference with the two
batched snapshots (subject and parent) and build the output list,
skipping dangling subjects with a warning and embedding `null` for a
missing parent class with a warning. -/
def buildOutput (store : DocStore) : List ValidRef → List SubjectOut × List FetchWarning
  | [] => ([], [])
  | v :: rest =>
    let acc := buildOutput store rest
    match getDoc store v.subjectPath with
    | none => (acc.1, .subjectNotFound v.subjectPath :: acc.2)
    | some subjectData =>
      match getDoc store v.parentPath with
      | none =>
        (⟨docId v.subjectPath, v.subjectPath, subjectData, none⟩ :: acc.1,
         .parentNotFound v.parentPath :: acc.2)
      | some classData =>
        (⟨docId v.subjectPath, v.subjectPath, subjectData,
          some ⟨docId v.parentPath, classData⟩⟩ :: acc.1, acc.2)

/-- The aggregator's only failure. -/
inductive FetchError where
  | userNotFound
deriving DecidableEq

/-- `fetchEnrolledClassesWithParents(db, usersCollection, userId)` from
`helper.js` lines 37-128.  The two early returns of the source for an
empty reference list coincide with the general path (both phases map
`[]` to `[]`), so they are not special-cased here. -/
def fetchEnrolledClassesWithParents (store : DocStore) (users : UserStore)
    (userId : String) : Except FetchError (List SubjectOut × List FetchWarning) :=
  match getDoc users userId with
  | none => .error .userNotFound
  | some user =>
    let enrolledRefs := user.enrolled_classes.getD []
    let phase1 := collectValidRefs enrolledRefs
    let phase2 := buildOutput store phase1.1
    .ok (phase2.1, phase1.2 ++ phase2.2)

/-- The fate of a single enrollment reference, used to state that the
aggregator processes references independently and in order: `none`
when the reference is skipped, otherwise the subject it contributes. -/
def refOutcome (store : DocStore) (r : RefItem) : Option SubjectOut :=
  match resolveRef r with
  | none => none
  | some sp =>
    match parentPathOfSubject sp with
    | none => none
    | some pp =>
      match getDoc store sp with
      | none => none
      | some subjectData =>
        some ⟨docId sp, sp, subjectData,
          (getDoc store pp).map (fun classData => ⟨docId pp, classData⟩)⟩

/-! ### Authentication guard (`authenticateToken`) -/

/-- The guard's verdict: the HTTP status and message it sends, or the
user record and id it attaches to the request
(`req.user`/`req.userId`). -/
inductive AuthResult where
  | unauthorized (msg : String)
  | forbidden (msg : String)
  | notFound (msg : String)
  | internal (msg : String)
  | ok (user : UserDoc) (userId : String)
deriving DecidableEq

/-- `const token = authHeader && authHeader.split(' ')[1]` followed by
the `if (!token)` falsiness test: `none` exactly when the extracted
token is falsy (header absent or empty, no second chunk, or an empty
second chunk). -/
def tokenFromHeader (authHeader : Option String) : Option String :=
  match authHeader with
  | none => none
  | some h =>
    match (splitChar ' ' h).drop 1 with
    | [] => none
    | t :: _ => if t = "" then none else some t

/-- The user-loading tail of the guard (`usersCollection.doc(userId)
.get()` onwards), over a fallible storage read. -/
def authUserStep (userGet : String → Except Unit (Option UserDoc))
    (userId : String) : AuthResult :=
  match userGet userId with
  | .error _ => .internal "Internal server error during authentication."
  | .ok none => .notFound "User not found."
  | .ok (some user) => .ok user userId

/-- The body of `authenticateToken` (`helper.js` lines 810-866) over
explicit storage-call results, so that a storage call that throws is
represented by `Except.error` and lands in the surrounding
`try/catch`.  The returned flag records whether the expiry side effect
(`sessionDoc.ref.update({ isActive: false })`) was committed. -/
def authenticateTokenE (tokenOpt : Option String)
    (sessionGet : Except Unit (Option SessionDoc))
    (sessionUpdate : Except Unit Unit)
    (userGet : String → Except Unit (Option UserDoc))
    (now : Nat) : AuthResult × Bool :=
  match tokenOpt with
  | none => (.unauthorized "Authorization token required.", false)
  | some _ =>
    match sessionGet with
    | .error _ => (.internal "Internal server error during authentication.", false)
    | .ok none => (.forbidden "Invalid token.", false)
    | .ok (some session) =>
      if session.isActive = JSVal.vBool false then
        (.forbidden "Session expired or invalidated.", false)
      else
        match session.expiresAt with
        | .vTimestamp expiresAtMillis =>
          if expiresAtMillis < now then
            match sessionUpdate with
            | .error _ =>
              (.internal "Internal server error during authentication.", false)
            | .ok _ => (.forbidden "Session expired due to inactivity.", true)
          else (authUserStep userGet session.userId, false)
        | _ => (authUserStep userGet session.userId, false)

/-- Commit the guard's expiry side effect to the session store when it
was performed. -/
def applyGuardEffect (sessions : SessionStore) (tokenOpt : Option String)
    (r : AuthResult × Bool) : AuthResult × SessionStore :=
  match tokenOpt, r.2 with
  | some t, true =>
    (r.1, updateDoc sessions t (fun s => { s with isActive := JSVal.vBool false }))
  | _, _ => (r.1, sessions)

/-- `authenticateToken` instantiated with the concrete (non-throwing)
session and user stores: the middleware as the routes below use it,
returning the verdict together with the possibly-updated session
store. -/
def authenticateToken (sessions : SessionStore) (users : UserStore)
    (authHeader : Option String) (now : Nat) : AuthResult × SessionStore :=
  let tokenOpt := tokenFromHeader authHeader
  let sessionGet : Except Unit (Option SessionDoc) :=
    .ok (match tokenOpt with
         | some t => getDoc sessions t
         | none => none)
  applyGuardEffect sessions tokenOpt
    (authenticateTokenE tokenOpt sessionGet (.ok ())
      (fun uid => .ok (getDoc users uid)) now)

/-! ### Session lifecycle (`cleanupPreviousSessions`, `/login`,
`/logout`, `/profile`, `/reset-password`) -/

/-- `SESSION_DURATION_MS = 24 * 60 * 60 * 1000`. -/
def SESSION_DURATION_MS : Nat := 24 * 60 * 60 * 1000

/-- `cleanupPreviousSessions(userId)` (`helper.js` lines 787-806): one
atomic batch marking every session of the user whose `isActive` field
is the boolean `true` as inactive, stamping `logoutTime`. -/
def cleanupPreviousSessions (now : Nat) (userId : String)
    (sessions : SessionStore) : SessionStore :=
  sessions.map (fun p =>
    if p.2.userId = userId ∧ p.2.isActive = JSVal.vBool true then
      (p.1, { p.2 with isActive := JSVal.vBool false,
                       logoutTime := JSVal.vTimestamp now })
    else p)

/-- `usersCollection.where('email', '==', email).limit(1).get()`. -/
def findUserByEmail (users : UserStore) (email : String) :
    Option (String × UserDoc) :=
  users.find? (fun p => decide (p.2.email = email))

/-- The session record `/login` writes
(`{ userId, loginTime, expiresAt, isActive: true }`; the
`serverTimestamp()` token resolves to commit time). -/
def newSessionDoc (userId : String) (now : Nat) : SessionDoc :=
  { userId := userId,
    loginTime := JSVal.vTimestamp now,
    expiresAt := JSVal.vTimestamp (now + SESSION_DURATION_MS),
    isActive := JSVal.vBool true,
    logoutTime := JSVal.vUndefined }

/-- The `/login` route's response: the success variant carries exactly
the fields of the JSON body
`{ message, token, expiresAt, user: { id, is_new } }`. -/
inductive LoginResult where
  | badRequest (msg : String)
  | unauthorized (msg : String)
  | ok (token : String) (expiresAtMillis : Nat) (userId : String) (is_new : JSVal)
deriving DecidableEq

/-- `POST /login` (`helper.js` lines 909-968).  `sessionToken` stands
for the fresh `uuidv4()`; `now` for `Date.now()`.  Body fields are
strings where the empty string is the falsy case of
`if (!email || !password)`. -/
def login (users : UserStore) (sessions : SessionStore)
    (email password sessionToken : String) (now : Nat) :
    LoginResult × SessionStore :=
  if email = "" ∨ password = "" then
    (.badRequest "Email and password are required.", sessions)
  else
    match findUserByEmail users email with
    | none => (.unauthorized "Invalid email or password.", sessions)
    | some (userId, user) =>
      if user.password_hash ≠ password then
        (.unauthorized "Invalid email or password.", sessions)
      else
        let cleaned := cleanupPreviousSessions now userId sessions
        (.ok sessionToken (now + SESSION_DURATION_MS) userId user.is_new,
         setDoc cleaned sessionToken (newSessionDoc userId now))

/-- The sequence of session-store states a successful `/login` commits,
in order: the initial store, the store after the atomic deactivation
batch (`batch.commit()`), and the store after the separate
`sessionsCollection.doc(sessionToken).set(...)`.  A failed login
commits nothing. -/
def loginSessionTrace (users : UserStore) (sessions : SessionStore)
    (email password sessionToken : String) (now : Nat) : List SessionStore :=
  if email = "" ∨ password = "" then [sessions]
  else
    match findUserByEmail users email with
    | none => [sessions]
    | some (userId, user) =>
      if user.password_hash ≠ password then [sessions]
      else
        let cleaned := cleanupPreviousSessions now userId sessions
        [sessions, cleaned, setDoc cleaned sessionToken (newSessionDoc userId now)]

/-- Number of sessions of `userId` whose `isActive` field is the
boolean `true`. -/
def countActive (sessions : SessionStore) (userId : String) : Nat :=
  (sessions.filter (fun p =>
    decide (p.2.userId = userId ∧ p.2.isActive = JSVal.vBool true))).length

/-- The `/logout` route's response shape. -/
inductive LogoutResult where
  | guardFail (r : AuthResult)
  | success (msg : String)
deriving DecidableEq

/-- The `try/catch` body of the `/logout` handler over the fallible
session update: a successful update answers 200 with
"Logout successful. Session invalidated.", and a thrown update is
swallowed into a 200 "Logout process complete." — the handler never
surfaces a failure. -/
def logoutHandlerE (upd : Except Unit Unit) : LogoutResult :=
  match upd with
  | .ok _ => .success "Logout successful. Session invalidated."
  | .error _ => .success "Logout process complete."

/-- `POST /logout` (`helper.js` lines 974-989): the route first runs
the `authenticateToken` middleware; only when the guard calls `next()`
does the handler mark the session inactive. -/
def logoutRoute (sessions : SessionStore) (users : UserStore)
    (authHeader : Option String) (now : Nat) : LogoutResult × SessionStore :=
  let guarded := authenticateToken sessions users authHeader now
  match guarded.1 with
  | .ok _ _ =>
    match tokenFromHeader authHeader with
    | some t =>
      (logoutHandlerE (.ok ()),
       updateDoc guarded.2 t (fun s =>
         { s with isActive := JSVal.vBool false,
                  logoutTime := JSVal.vTimestamp now }))
    | none => (logoutHandlerE (.ok ()), guarded.2)
  | r => (.guardFail r, guarded.2)

/-- The `/profile` route's response shape: the success variant carries
the credential-stripped user and the user id. -/
inductive ProfileResult where
  | guardFail (r : AuthResult)
  | success (user : SafeUser) (userId : String)
deriving DecidableEq

/-- `GET /profile` (`helper.js` lines 995-1003). -/
def profileRoute (sessions : SessionStore) (users : UserStore)
    (authHeader : Option String) (now : Nat) : ProfileResult × SessionStore :=
  let guarded := authenticateToken sessions users authHeader now
  match guarded.1 with
  | .ok user userId => (.success (stripCredential user) userId, guarded.2)
  | r => (.guardFail r, guarded.2)

/-- The `/reset-password` route's response shape. -/
inductive ResetResult where
  | guardFail (r : AuthResult)
  | badRequest (msg : String)
  | success (userId : String)
deriving DecidableEq

/-- `POST /reset-password` (`helper.js` lines 876-903), the
token-authenticated variant: after the guard, an absent (falsy)
`newPassword` is a 400; otherwise the authenticated user's document is
updated with the new credential, a fresh `updatedAt`, and
`is_new: false`.  The session store is returned alongside to record
that the handler never touches it. -/
def resetPasswordRoute (sessions : SessionStore) (users : UserStore)
    (authHeader : Option String) (newPassword : String) (now : Nat) :
    ResetResult × SessionStore × UserStore :=
  let guarded := authenticateToken sessions users authHeader now
  match guarded.1 with
  | .ok _ userId =>
    if newPassword = "" then (.badRequest "newPassword is required.", guarded.2, users)
    else
      (.success userId, guarded.2,
       updateDoc users userId (fun u =>
         { u with password_hash := newPassword,
                  updatedAt := JSVal.vTimestamp now,
                  is_new := JSVal.vBool false }))
  | r => (.guardFail r, guarded.2, users)

/-- Replace one user's stored credential, leaving everything else in
the store untouched (used to state credential noninterference). -/
def setUserCredential (users : UserStore) (userId : String) (c : String) :
    UserStore :=
  updateDoc users userId (fun u => { u with password_hash := c })

/-! ### Supporting lemmas about the store operations -/

theorem getDoc_setDoc_self {α : Type} (st : List (String × α)) (k : String) (v : α) :
    getDoc (setDoc st k v) k = some v := by
  induction st with
  | nil => simp [setDoc, getDoc]
  | cons p rest ih =>
    by_cases h : p.1 = k
    · simp [setDoc, getDoc, h]
    · simp [setDoc, getDoc, h, ih]

theorem mem_setDoc_ne {α : Type} {st : List (String × α)} {k k' : String}
    {v v' : α} (hmem : (k', v') ∈ setDoc st k v) (hne : k' ≠ k) :
    (k', v') ∈ st := by
  induction st with
  | nil => simp [setDoc] at hmem; exact absurd hmem.1 hne
  | cons p rest ih =>
    by_cases h : p.1 = k
    · simp only [setDoc, if_pos h] at hmem
      rcases List.mem_cons.mp hmem with h1 | h1
      · exact absurd (congrArg Prod.fst h1) hne
      · exact List.mem_cons_of_mem _ h1
    · simp only [setDoc, if_neg h] at hmem
      rcases List.mem_cons.mp hmem with h1 | h1
      · exact h1 ▸ List.mem_cons_self _ _
      · exact List.mem_cons_of_mem _ (ih h1)

theorem setDoc_eq_append {α : Type} {st : List (String × α)} {k : String}
    (v : α) (habs : getDoc st k = none) : setDoc st k v = st ++ [(k, v)] := by
  induction st with
  | nil => simp [setDoc]
  | cons p rest ih =>
    by_cases h : p.1 = k
    · simp [getDoc, h] at habs
    · simp only [getDoc, if_neg h] at habs
      simp [setDoc, h, ih habs]

theorem getDoc_updateDoc_self {α : Type} (st : List (String × α)) (k : String)
    (f : α → α) : getDoc (updateDoc st k f) k = (getDoc st k).map f := by
  induction st with
  | nil => simp [updateDoc, getDoc]
  | cons p rest ih =>
    by_cases h : p.1 = k
    · simp [updateDoc, getDoc, h]
    · simp only [updateDoc, List.map_cons, if_neg h]
      simp only [getDoc, if_neg h]
      exact ih

theorem getDoc_updateDoc_ne {α : Type} (st : List (String × α)) {k k' : String}
    (f : α → α) (hne : k' ≠ k) : getDoc (updateDoc st k f) k' = getDoc st k' := by
  induction st with
  | nil => simp [updateDoc, getDoc]
  | cons p rest ih =>
    by_cases h : p.1 = k
    · have hp : p.1 ≠ k' := fun hc => hne (hc ▸ h)
      simp only [updateDoc, List.map_cons, if_pos h]
      simp only [getDoc, if_neg hp]
      exact ih
    · simp only [updateDoc, List.map_cons, if_neg h]
      by_cases h2 : p.1 = k'
      · simp [getDoc, h2]
      · simp only [getDoc, if_neg h2]
        exact ih

/-! ### Supporting lemmas about `cleanupPreviousSessions` -/

theorem mem_cleanup_inactive {now : Nat} {uid : String} {st : SessionStore}
    {k : String} {s : SessionDoc}
    (hmem : (k, s) ∈ cleanupPreviousSessions now uid st)
    (huser : s.userId = uid) : s.isActive ≠ JSVal.vBool true := by
  rcases List.mem_map.mp hmem with ⟨p, _, hp⟩
  by_cases hc : p.2.userId = uid ∧ p.2.isActive = JSVal.vBool true
  · simp only [cleanupPreviousSessions] at hp
    rw [if_pos hc] at hp
    have : s = { p.2 with isActive := JSVal.vBool false,
                          logoutTime := JSVal.vTimestamp now } :=
      (Prod.mk.injEq _ _ _ _ ▸ hp).2.symm
    rw [this]
    simp
  · simp only [cleanupPreviousSessions] at hp
    rw [if_neg hc] at hp
    have hs : s = p.2 := (Prod.mk.injEq _ _ _ _ ▸ hp).2.symm
    intro hactive
    exact hc ⟨hs ▸ huser, hs ▸ hactive⟩

theorem getDoc_cleanup_none {now : Nat} {uid t : String} {st : SessionStore}
    (habs : getDoc st t = none) :
    getDoc (cleanupPreviousSessions now uid st) t = none := by
  induction st with
  | nil => simp [cleanupPreviousSessions, getDoc]
  | cons p rest ih =>
    by_cases h : p.1 = t
    · simp [getDoc, h] at habs
    · simp only [getDoc, if_neg h] at habs
      simp only [cleanupPreviousSessions, List.map_cons]
      by_cases hc : p.2.userId = uid ∧ p.2.isActive = JSVal.vBool true
      · rw [if_pos hc]
        simp only [getDoc, if_neg h]
        exact ih habs
      · rw [if_neg hc]
        simp only [getDoc, if_neg h]
        exact ih habs

theorem countActive_cleanup (now : Nat) (uid : String) (st : SessionStore) :
    countActive (cleanupPreviousSessions now uid st) uid = 0 := by
  induction st with
  | nil => rfl
  | cons p rest ih =>
    simp only [cleanupPreviousSessions, countActive, List.map_cons] at *
    by_cases hc : p.2.userId = uid ∧ p.2.isActive = JSVal.vBool true
    · rw [if_pos hc]
      rw [List.filter_cons_of_neg (by simp)]
      exact ih
    · rw [if_neg hc]
      rw [List.filter_cons_of_neg (by simpa using hc)]
      exact ih

theorem countActive_append_new (st : SessionStore) (t uid : String) (now : Nat) :
    countActive (st ++ [(t, newSessionDoc uid now)]) uid = countActive st uid + 1 := by
  simp only [countActive, List.filter_append, List.length_append]
  congr 1
  simp [newSessionDoc]

/-! ### Supporting lemmas about the authentication guard -/

/-- The guard's expiry condition: the stored `expiresAt` is a
`Timestamp` and `now` is strictly past it. -/
def sessionExpired (s : SessionDoc) (now : Nat) : Prop :=
  ∃ ms, s.expiresAt = JSVal.vTimestamp ms ∧ ms < now

theorem auth_noToken {sessions : SessionStore} {users : UserStore}
    {h : Option String} {now : Nat} (htok : tokenFromHeader h = none) :
    authenticateToken sessions users h now =
      (.unauthorized "Authorization token required.", sessions) := by
  simp [authenticateToken, htok, authenticateTokenE, applyGuardEffect]

theorem auth_invalidToken {sessions : SessionStore} {users : UserStore}
    {h : Option String} {t : String} {now : Nat}
    (htok : tokenFromHeader h = some t) (hget : getDoc sessions t = none) :
    authenticateToken sessions users h now = (.forbidden "Invalid token.", sessions) := by
  simp [authenticateToken, htok, hget, authenticateTokenE, applyGuardEffect]

theorem auth_inactive {sessions : SessionStore} {users : UserStore}
    {h : Option String} {t : String} {now : Nat} {s : SessionDoc}
    (htok : tokenFromHeader h = some t) (hget : getDoc sessions t = some s)
    (hact : s.isActive = JSVal.vBool false) :
    authenticateToken sessions users h now =
      (.forbidden "Session expired or invalidated.", sessions) := by
  simp [authenticateToken, htok, hget, hact, authenticateTokenE, applyGuardEffect]

theorem auth_expired {sessions : SessionStore} {users : UserStore}
    {h : Option String} {t : String} {now ms : Nat} {s : SessionDoc}
    (htok : tokenFromHeader h = some t) (hget : getDoc sessions t = some s)
    (hact : s.isActive ≠ JSVal.vBool false)
    (hexp : s.expiresAt = JSVal.vTimestamp ms) (hlt : ms < now) :
    authenticateToken sessions users h now =
      (.forbidden "Session expired due to inactivity.",
       updateDoc sessions t (fun d => { d with isActive := JSVal.vBool false })) := by
  simp [authenticateToken, htok, hget, hact, hexp, hlt, authenticateTokenE,
    applyGuardEffect]

theorem auth_userMissing {sessions : SessionStore} {users : UserStore}
    {h : Option String} {t : String} {now : Nat} {s : SessionDoc}
    (htok : tokenFromHeader h = some t) (hget : getDoc sessions t = some s)
    (hact : s.isActive ≠ JSVal.vBool false) (hexp : ¬ sessionExpired s now)
    (huser : getDoc users s.userId = none) :
    authenticateToken sessions users h now = (.notFound "User not found.", sessions) := by
  rcases he : s.expiresAt with s' | n | b | _ | _ | ms | p <;>
    simp [authenticateToken, htok, hget, hact, he, huser, authenticateTokenE,
      applyGuardEffect, authUserStep]
  rw [if_neg (fun hlt => hexp ⟨ms, he, hlt⟩)]

theorem auth_ok {sessions : SessionStore} {users : UserStore}
    {h : Option String} {t : String} {now : Nat} {s : SessionDoc} {u : UserDoc}
    (htok : tokenFromHeader h = some t) (hget : getDoc sessions t = some s)
    (hact : s.isActive ≠ JSVal.vBool false) (hexp : ¬ sessionExpired s now)
    (huser : getDoc users s.userId = some u) :
    authenticateToken sessions users h now = (.ok u s.userId, sessions) := by
  rcases he : s.expiresAt with s' | n | b | _ | _ | ms | p <;>
    simp [authenticateToken, htok, hget, hact, he, huser, authenticateTokenE,
      applyGuardEffect, authUserStep]
  rw [if_neg (fun hlt => hexp ⟨ms, he, hlt⟩)]

theorem auth_ok_inv {sessions : SessionStore} {users : UserStore}
    {h : Option String} {now : Nat} {u : UserDoc} {uid : String}
    {st2 : SessionStore}
    (heq : authenticateToken sessions users h now = (.ok u uid, st2)) :
    st2 = sessions ∧ getDoc users uid = some u := by
  rcases htok : tokenFromHeader h with _ | t
  · rw [auth_noToken htok] at heq
    simp at heq
  · rcases hget : getDoc sessions t with _ | s
    · rw [auth_invalidToken htok hget] at heq
      simp at heq
    · by_cases hact : s.isActive = JSVal.vBool false
      · rw [auth_inactive htok hget hact] at heq
        simp at heq
      · by_cases hexp : sessionExpired s now
        · rcases hexp with ⟨ms, he, hlt⟩
          rw [auth_expired htok hget hact he hlt] at heq
          simp at heq
        · rcases huser : getDoc users s.userId with _ | u'
          · rw [auth_userMissing htok hget hact hexp huser] at heq
            simp at heq
          · rw [auth_ok htok hget hact hexp huser] at heq
            have h1 := congrArg Prod.fst heq
            have h2 := congrArg Prod.snd heq
            simp only [Prod.fst, Prod.snd, AuthResult.ok.injEq] at h1 h2
            rcases h1 with ⟨hu, hid⟩
            subst hu
            subst hid
            exact ⟨h2.symm, huser⟩

theorem getDoc_setUserCredential (users : UserStore) (uid c k : String) :
    getDoc (setUserCredential users uid c) k =
      if k = uid then (getDoc users k).map (fun u => { u with password_hash := c })
      else getDoc users k := by
  unfold setUserCredential
  by_cases hk : k = uid
  · subst hk
    rw [getDoc_updateDoc_self]
    simp
  · rw [getDoc_updateDoc_ne _ _ hk]
    simp [hk]

/-- Adjust the guard verdict for a store whose target user has a
replaced credential: only the attached user record's credential field
can differ. -/
def credTweak (uid c : String) : AuthResult → AuthResult
  | .ok u i => .ok (if i = uid then { u with password_hash := c } else u) i
  | r => r

theorem auth_setUserCredential (sessions : SessionStore) (users : UserStore)
    (h : Option String) (now : Nat) (uid c : String) :
    authenticateToken sessions (setUserCredential users uid c) h now =
      (credTweak uid c (authenticateToken sessions users h now).1,
       (authenticateToken sessions users h now).2) := by
  rcases htok : tokenFromHeader h with _ | t
  · rw [auth_noToken htok, auth_noToken htok]
    rfl
  · rcases hget : getDoc sessions t with _ | s
    · rw [auth_invalidToken htok hget, auth_invalidToken htok hget]
      rfl
    · by_cases hact : s.isActive = JSVal.vBool false
      · rw [auth_inactive htok hget hact, auth_inactive htok hget hact]
        rfl
      · by_cases hexp : sessionExpired s now
        · rcases hexp with ⟨ms, he, hlt⟩
          rw [auth_expired htok hget hact he hlt, auth_expired htok hget hact he hlt]
          rfl
        · rcases huser : getDoc users s.userId with _ | u'
          · have huser2 : getDoc (setUserCredential users uid c) s.userId = none := by
              rw [getDoc_setUserCredential, huser]
              simp
            rw [auth_userMissing htok hget hact hexp huser2,
              auth_userMissing htok hget hact hexp huser]
            rfl
          · by_cases hid : s.userId = uid
            · have huser2 : getDoc (setUserCredential users uid c) s.userId =
                  some { u' with password_hash := c } := by
                rw [getDoc_setUserCredential, if_pos hid, huser]
                rfl
              rw [auth_ok htok hget hact hexp huser2,
                auth_ok htok hget hact hexp huser]
              simp [credTweak, hid]
            · have huser2 : getDoc (setUserCredential users uid c) s.userId =
                  some u' := by
                rw [getDoc_setUserCredential, if_neg hid, huser]
              rw [auth_ok htok hget hact hexp huser2,
                auth_ok htok hget hact hexp huser]
              simp [credTweak, hid]

/-! ### Supporting lemmas about the enrollment aggregator -/

theorem buildOutput_collect_eq (store : DocStore) (refs : List RefItem) :
    (buildOutput store (collectValidRefs refs).1).1 =
      refs.filterMap (refOutcome store) := by
  induction refs with
  | nil => rfl
  | cons r rest ih =>
    simp only [collectValidRefs]
    rcases hr : resolveRef r with _ | sp
    · simpa [List.filterMap_cons, refOutcome, hr] using ih
    · rcases hp : parentPathOfSubject sp with _ | pp
      · simpa [List.filterMap_cons, refOutcome, hr, hp] using ih
      · rcases hs : getDoc store sp with _ | subjectData
        · simpa [buildOutput, List.filterMap_cons, refOutcome, hr, hp, hs] using ih
        · rcases hc : getDoc store pp with _ | classData
          · simpa [buildOutput, List.filterMap_cons, refOutcome, hr, hp, hs, hc]
              using ih
          · simpa [buildOutput, List.filterMap_cons, refOutcome, hr, hp, hs, hc]
              using ih

theorem collectValidRefs_total (refs : List RefItem) :
    (collectValidRefs refs).1.length + (collectValidRefs refs).2.length =
      refs.length := by
  induction refs with
  | nil => rfl
  | cons r rest ih =>
    simp only [collectValidRefs]
    rcases hr : resolveRef r with _ | sp
    · simp only [hr, List.length_cons]
      omega
    · rcases hp : parentPathOfSubject sp with _ | pp
      · simp only [hr, hp, List.length_cons]
        omega
      · simp only [hr, hp, List.length_cons]
        omega

/-! ### Supporting lemmas about `/login` -/

theorem login_ok_inv {users : UserStore} {sessions : SessionStore}
    {email password sessionToken : String} {now : Nat} {t : String} {e : Nat}
    {uid : String} {isNew : JSVal} {sessions2 : SessionStore}
    (heq : login users sessions email password sessionToken now =
      (.ok t e uid isNew, sessions2)) :
    email ≠ "" ∧ password ≠ "" ∧
    ∃ user, findUserByEmail users email = some (uid, user) ∧
      user.password_hash = password ∧ t = sessionToken ∧
      e = now + SESSION_DURATION_MS ∧ isNew = user.is_new ∧
      sessions2 = setDoc (cleanupPreviousSessions now uid sessions)
        sessionToken (newSessionDoc uid now) := by
  unfold login at heq
  split at heq
  · simp at heq
  · rename_i hvalid
    push_neg at hvalid
    split at heq
    · simp at heq
    · rename_i userId user hfind
      split at heq
      · simp at heq
      · rename_i hpw
        push_neg at hpw
        have h1 := congrArg Prod.fst heq
        have h2 := congrArg Prod.snd heq
        simp only [Prod.fst, Prod.snd, LoginResult.ok.injEq] at h1 h2
        rcases h1 with ⟨ht, he, hid, hnew⟩
        subst ht
        subst he
        subst hid
        subst hnew
        exact ⟨hvalid.1, hvalid.2, user, hfind, hpw, rfl, rfl, rfl, h2.symm⟩

/-! ### Claim theorems -/

/-- C3 counterexample: `getParentClassRefPath` does not return "no
match" on every unsupported input — on an object whose `path` property
is the number `42` (truthy but not a string) the code calls
`pathString.split("/")` on a number and raises a `TypeError` instead
of returning `null`. -/
theorem deriveParentPath_counterexample :
    getParentClassRefPath (JSVal.vObj (JSVal.vNum 42)) = .error .typeError ∧
    ∀ r, Except.error JSError.typeError ≠ Except.ok (α := JSError) r :=
  ⟨rfl, fun _ h => Except.noConfusion h⟩

/-- C3 (amended): `deriveParentPath` returns the path formed by
dropping the last two non-empty segments exactly when the input is a
`"/"`-prefixed string, or an object whose `path` property is a
non-empty string, whose path has at least 5 non-empty segments with
the second-to-last equal to the literal `"subjects"`; every other
input yields no match without raising — with the single exception of
an object whose `path` property is truthy but not a string, on which
the function raises a `TypeError`. -/
theorem deriveParentPath_amended :
    (getParentClassRefPath (JSVal.vStr "/school/s1/classes/FirstA/subjects/maths") =
      .ok (some "/school/s1/classes/FirstA")) ∧
    (∀ s : String, startsWithSlash s = true →
      getParentClassRefPath (JSVal.vStr s) = .ok (getParentClassRefPathStr s)) ∧
    (∀ s : String, s ≠ "" →
      getParentClassRefPath (JSVal.vObj (JSVal.vStr s)) =
        .ok (getParentClassRefPathStr s)) ∧
    (∀ p : String, 5 ≤ (pathSegments p).length →
      (pathSegments p).getD ((pathSegments p).length - 2) "" = "subjects" →
      getParentClassRefPathStr p =
        some ("/" ++ joinSlash ((pathSegments p).take ((pathSegments p).length - 2)))) ∧
    (∀ p : String,
      (pathSegments p).length < 5 ∨
        (pathSegments p).getD ((pathSegments p).length - 2) "" ≠ "subjects" →
      getParentClassRefPathStr p = none) ∧
    (∀ s : String, startsWithSlash s = false →
      getParentClassRefPath (JSVal.vStr s) = .ok none) ∧
    (∀ p : JSVal, p.truthy = false → getParentClassRefPath (JSVal.vObj p) = .ok none) ∧
    (∀ n : Int, getParentClassRefPath (JSVal.vNum n) = .ok none) ∧
    (∀ b : Bool, getParentClassRefPath (JSVal.vBool b) = .ok none) ∧
    (getParentClassRefPath JSVal.vNull = .ok none) ∧
    (getParentClassRefPath JSVal.vUndefined = .ok none) ∧
    (∀ ms : Nat, getParentClassRefPath (JSVal.vTimestamp ms) = .ok none) ∧
    (∀ p : JSVal, p.truthy = true → (∀ s : String, p ≠ JSVal.vStr s) →
      getParentClassRefPath (JSVal.vObj p) = .error .typeError) := by
  refine ⟨rfl, ?_, ?_, ?_, ?_, ?_, ?_, fun n => rfl, fun b => rfl, rfl, rfl,
    fun ms => rfl, ?_⟩
  · intro s hs
    simp [getParentClassRefPath, hs]
  · intro s hs
    simp [getParentClassRefPath, JSVal.truthy, hs]
  · intro p h1 h2
    simp only [getParentClassRefPathStr]
    rw [if_pos ⟨h1, h2⟩]
  · intro p hcond
    simp only [getParentClassRefPathStr]
    rw [if_neg]
    rcases hcond with hlt | hne
    · exact fun hc => absurd hc.1 (by omega)
    · exact fun hc => hne hc.2
  · intro s hs
    simp [getParentClassRefPath, hs]
  · intro p hp
    simp [getParentClassRefPath, hp]
  · intro p hp hnotstr
    rcases p with s | n | b | _ | _ | ms | q <;>
      simp [getParentClassRefPath, JSVal.truthy] at hp ⊢ <;>
      first
      | exact absurd rfl (hnotstr _)
      | exact hp

/-- C3 witness: a `"/"`-prefixed string with 6 non-empty segments and
second-to-last `"subjects"` maps to the 4-segment parent path. -/
theorem deriveParentPath_amended_witness :
    getParentClassRefPath (JSVal.vStr "/school/sch/classes/ClsA/subjects/phy") =
      .ok (getParentClassRefPathStr "/school/sch/classes/ClsA/subjects/phy") :=
  deriveParentPath_amended.2.1 "/school/sch/classes/ClsA/subjects/phy" rfl

/-- C4: the enrollment aggregator fails only when the user record
itself is absent; for a present user it always succeeds, its output is
the in-order `filterMap` of a per-reference outcome (so one bad
reference never affects the rest), every reference is either kept or
warned about, a malformed reference or dangling subject is skipped,
and a subject whose parent class document is missing is kept with a
`none` parent. -/
theorem fetchEnrolled_tolerates_bad_refs :
    (∀ (store : DocStore) (users : UserStore) (uid : String),
      getDoc users uid = none ↔
        fetchEnrolledClassesWithParents store users uid = .error .userNotFound) ∧
    (∀ (store : DocStore) (users : UserStore) (uid : String) (user : UserDoc),
      getDoc users uid = some user →
      fetchEnrolledClassesWithParents store users uid =
        .ok ((user.enrolled_classes.getD []).filterMap (refOutcome store),
          (collectValidRefs (user.enrolled_classes.getD [])).2 ++
          (buildOutput store (collectValidRefs (user.enrolled_classes.getD [])).1).2)) ∧
    (∀ refs : List RefItem,
      (collectValidRefs refs).1.length + (collectValidRefs refs).2.length =
        refs.length) ∧
    (∀ (store : DocStore) (r : RefItem), resolveRef r = none →
      refOutcome store r = none) ∧
    (∀ (store : DocStore) (r : RefItem) (sp : String), resolveRef r = some sp →
      parentPathOfSubject sp = none → refOutcome store r = none) ∧
    (∀ (store : DocStore) (r : RefItem) (sp pp : String), resolveRef r = some sp →
      parentPathOfSubject sp = some pp → getDoc store sp = none →
      refOutcome store r = none) ∧
    (∀ (store : DocStore) (r : RefItem) (sp pp : String) (subjectData : Fields),
      resolveRef r = some sp → parentPathOfSubject sp = some pp →
      getDoc store sp = some subjectData → getDoc store pp = none →
      refOutcome store r = some ⟨docId sp, sp, subjectData, none⟩) := by
  refine ⟨?_, ?_, collectValidRefs_total, ?_, ?_, ?_, ?_⟩
  · intro store users uid
    unfold fetchEnrolledClassesWithParents
    rcases h : getDoc users uid with _ | user <;> simp
  · intro store users uid user huser
    unfold fetchEnrolledClassesWithParents
    rw [huser]
    simp only [Except.ok.injEq, Prod.mk.injEq]
    exact ⟨buildOutput_collect_eq store _, trivial⟩
  · intro store r h
    simp [refOutcome, h]
  · intro store r sp h1 h2
    simp [refOutcome, h1, h2]
  · intro store r sp pp h1 h2 h3
    simp [refOutcome, h1, h2, h3]
  · intro store r sp pp subjectData h1 h2 h3 h4
    simp [refOutcome, h1, h2, h3, h4]

/-- C4 witness: a user enrolled with one valid string reference and
one malformed reference yields exactly the one resolvable subject (its
parent class embedded), skipping the malformed one. -/
theorem fetchEnrolled_tolerates_bad_refs_witness :
    fetchEnrolledClassesWithParents
      [("/school/s1/classes/A/subjects/math", [("name", JSVal.vStr "Math")]),
       ("/school/s1/classes/A", [("grade", JSVal.vNum 1)])]
      [("u1", { email := "e@x", password_hash := "pw", is_new := JSVal.vBool true,
                user_role := JSVal.vNull, school_id := JSVal.vNull,
                updatedAt := JSVal.vNull,
                enrolled_classes :=
                  some [RefItem.str "/school/s1/classes/A/subjects/math",
                        RefItem.other] })]
      "u1" =
    .ok ([⟨"math", "/school/s1/classes/A/subjects/math",
          [("name", JSVal.vStr "Math")],
          some ⟨"A", [("grade", JSVal.vNum 1)]⟩⟩],
         [FetchWarning.invalidRef]) := by
  rw [fetchEnrolled_tolerates_bad_refs.2.1
    [("/school/s1/classes/A/subjects/math", [("name", JSVal.vStr "Math")]),
     ("/school/s1/classes/A", [("grade", JSVal.vNum 1)])]
    [("u1", { email := "e@x", password_hash := "pw", is_new := JSVal.vBool true,
              user_role := JSVal.vNull, school_id := JSVal.vNull,
              updatedAt := JSVal.vNull,
              enrolled_classes :=
                some [RefItem.str "/school/s1/classes/A/subjects/math",
                      RefItem.other] })]
    "u1"
    { email := "e@x", password_hash := "pw", is_new := JSVal.vBool true,
      user_role := JSVal.vNull, school_id := JSVal.vNull,
      updatedAt := JSVal.vNull,
      enrolled_classes :=
        some [RefItem.str "/school/s1/classes/A/subjects/math",
              RefItem.other] }
    rfl]
  rfl

/-- C2: the guard terminates on the first failing check in order —
missing bearer token → 401; no session under the token → 403
"Invalid token."; `isActive === false` → 403; a `Timestamp` expiry in
the past → 403 with the session flipped inactive as a side effect;
missing owning user → 404; otherwise the user record and its id are
attached — and every storage failure during these steps is caught and
answered as a 500 Internal error rather than propagating. -/
theorem authGuard_first_failure_order :
    (∀ (sessions : SessionStore) (users : UserStore) (h : Option String) (now : Nat),
      tokenFromHeader h = none →
      authenticateToken sessions users h now =
        (.unauthorized "Authorization token required.", sessions)) ∧
    (∀ (sessions : SessionStore) (users : UserStore) (h : Option String)
      (t : String) (now : Nat),
      tokenFromHeader h = some t → getDoc sessions t = none →
      authenticateToken sessions users h now =
        (.forbidden "Invalid token.", sessions)) ∧
    (∀ (sessions : SessionStore) (users : UserStore) (h : Option String)
      (t : String) (now : Nat) (s : SessionDoc),
      tokenFromHeader h = some t → getDoc sessions t = some s →
      s.isActive = JSVal.vBool false →
      authenticateToken sessions users h now =
        (.forbidden "Session expired or invalidated.", sessions)) ∧
    (∀ (sessions : SessionStore) (users : UserStore) (h : Option String)
      (t : String) (now ms : Nat) (s : SessionDoc),
      tokenFromHeader h = some t → getDoc sessions t = some s →
      s.isActive ≠ JSVal.vBool false → s.expiresAt = JSVal.vTimestamp ms →
      ms < now →
      authenticateToken sessions users h now =
        (.forbidden "Session expired due to inactivity.",
         updateDoc sessions t (fun d => { d with isActive := JSVal.vBool false }))) ∧
    (∀ (sessions : SessionStore) (users : UserStore) (h : Option String)
      (t : String) (now : Nat) (s : SessionDoc),
      tokenFromHeader h = some t → getDoc sessions t = some s →
      s.isActive ≠ JSVal.vBool false → ¬ sessionExpired s now →
      getDoc users s.userId = none →
      authenticateToken sessions users h now =
        (.notFound "User not found.", sessions)) ∧
    (∀ (sessions : SessionStore) (users : UserStore) (h : Option String)
      (t : String) (now : Nat) (s : SessionDoc) (u : UserDoc),
      tokenFromHeader h = some t → getDoc sessions t = some s →
      s.isActive ≠ JSVal.vBool false → ¬ sessionExpired s now →
      getDoc users s.userId = some u →
      authenticateToken sessions users h now = (.ok u s.userId, sessions)) ∧
    (∀ (t : String) (sessionUpdate : Except Unit Unit)
      (userGet : String → Except Unit (Option UserDoc)) (now : Nat),
      authenticateTokenE (some t) (.error ()) sessionUpdate userGet now =
        (.internal "Internal server error during authentication.", false)) ∧
    (∀ (t : String) (s : SessionDoc)
      (userGet : String → Except Unit (Option UserDoc)) (now ms : Nat),
      s.isActive ≠ JSVal.vBool false → s.expiresAt = JSVal.vTimestamp ms →
      ms < now →
      authenticateTokenE (some t) (.ok (some s)) (.error ()) userGet now =
        (.internal "Internal server error during authentication.", false)) ∧
    (∀ (t : String) (s : SessionDoc) (sessionUpdate : Except Unit Unit) (now : Nat),
      s.isActive ≠ JSVal.vBool false → ¬ sessionExpired s now →
      authenticateTokenE (some t) (.ok (some s)) sessionUpdate
        (fun _ => .error ()) now =
        (.internal "Internal server error during authentication.", false)) := by
  refine ⟨fun _ _ _ _ h1 => auth_noToken h1,
    fun _ _ _ _ _ h1 h2 => auth_invalidToken h1 h2,
    fun _ _ _ _ _ _ h1 h2 h3 => auth_inactive h1 h2 h3,
    fun _ _ _ _ _ _ _ h1 h2 h3 h4 h5 => auth_expired h1 h2 h3 h4 h5,
    fun _ _ _ _ _ _ h1 h2 h3 h4 h5 => auth_userMissing h1 h2 h3 h4 h5,
    fun _ _ _ _ _ _ _ h1 h2 h3 h4 h5 => auth_ok h1 h2 h3 h4 h5,
    fun _ _ _ _ => rfl, ?_, ?_⟩
  · intro t s userGet now ms hact hexp hlt
    simp [authenticateTokenE, hact, hexp, hlt]
  · intro t s sessionUpdate now hact hexp
    rcases he : s.expiresAt with s' | n | b | _ | _ | ms | p <;>
      simp [authenticateTokenE, hact, he, authUserStep]
    exact fun hlt => absurd ⟨ms, he, hlt⟩ hexp

/-- C2 witness: a session with a `Timestamp` expiry of 5ms checked at
`now = 10` is rejected as expired and flipped inactive in the store. -/
theorem authGuard_first_failure_order_witness :
    authenticateToken
      [("t1", { userId := "u1", loginTime := JSVal.vNull,
                expiresAt := JSVal.vTimestamp 5,
                isActive := JSVal.vBool true, logoutTime := JSVal.vUndefined })]
      [] (some "Bearer t1") 10 =
      (.forbidden "Session expired due to inactivity.",
       updateDoc
         [("t1", { userId := "u1", loginTime := JSVal.vNull,
                   expiresAt := JSVal.vTimestamp 5,
                   isActive := JSVal.vBool true,
                   logoutTime := JSVal.vUndefined })]
         "t1" (fun d => { d with isActive := JSVal.vBool false })) :=
  authGuard_first_failure_order.2.2.2.1
    [("t1", { userId := "u1", loginTime := JSVal.vNull,
              expiresAt := JSVal.vTimestamp 5,
              isActive := JSVal.vBool true, logoutTime := JSVal.vUndefined })]
    [] (some "Bearer t1") "t1" 10 5
    { userId := "u1", loginTime := JSVal.vNull,
      expiresAt := JSVal.vTimestamp 5,
      isActive := JSVal.vBool true, logoutTime := JSVal.vUndefined }
    rfl rfl (by decide) rfl (by decide)

/-- C10: a session whose `isActive` is absent or anything other than
the exact boolean `false` is never rejected as inactive; a session
whose `expiresAt` is absent or not a `Timestamp` skips the expiry
check entirely, so it is never rejected as expired no matter how large
`now` is; and a session malformed in both ways passes both checks and
proceeds straight to the user lookup (404 when the owner is missing,
success otherwise), with no store modification. -/
theorem authGuard_malformed_session_passes :
    (∀ (sessions : SessionStore) (users : UserStore) (h : Option String)
      (t : String) (now : Nat) (s : SessionDoc),
      tokenFromHeader h = some t → getDoc sessions t = some s →
      s.isActive ≠ JSVal.vBool false →
      (authenticateToken sessions users h now).1 ≠
        .forbidden "Session expired or invalidated.") ∧
    (∀ (sessions : SessionStore) (users : UserStore) (h : Option String)
      (t : String) (now : Nat) (s : SessionDoc),
      tokenFromHeader h = some t → getDoc sessions t = some s →
      s.isActive ≠ JSVal.vBool false →
      (∀ ms, s.expiresAt ≠ JSVal.vTimestamp ms) →
      (authenticateToken sessions users h now).1 ≠
        .forbidden "Session expired due to inactivity.") ∧
    (∀ (sessions : SessionStore) (users : UserStore) (h : Option String)
      (t : String) (now : Nat) (s : SessionDoc),
      tokenFromHeader h = some t → getDoc sessions t = some s →
      s.isActive ≠ JSVal.vBool false →
      (∀ ms, s.expiresAt ≠ JSVal.vTimestamp ms) →
      authenticateToken sessions users h now =
        ((match getDoc users s.userId with
          | none => AuthResult.notFound "User not found."
          | some u => AuthResult.ok u s.userId), sessions)) := by
  have main : ∀ (sessions : SessionStore) (users : UserStore) (h : Option String)
      (t : String) (now : Nat) (s : SessionDoc),
      tokenFromHeader h = some t → getDoc sessions t = some s →
      s.isActive ≠ JSVal.vBool false →
      (∀ ms, s.expiresAt ≠ JSVal.vTimestamp ms) →
      authenticateToken sessions users h now =
        ((match getDoc users s.userId with
          | none => AuthResult.notFound "User not found."
          | some u => AuthResult.ok u s.userId), sessions) := by
    intro sessions users h t now s htok hget hact hts
    have hexp : ¬ sessionExpired s now := fun hex =>
      (fun ⟨ms, he, _⟩ => hts ms he : sessionExpired s now → False) hex
    rcases huser : getDoc users s.userId with _ | u
    · rw [auth_userMissing htok hget hact hexp huser]
    · rw [auth_ok htok hget hact hexp huser]
  refine ⟨?_, ?_, main⟩
  · intro sessions users h t now s htok hget hact
    by_cases hexp : sessionExpired s now
    · rcases hexp with ⟨ms, he, hlt⟩
      rw [auth_expired htok hget hact he hlt]
      simp
    · rcases huser : getDoc users s.userId with _ | u
      · rw [auth_userMissing htok hget hact hexp huser]
        simp
      · rw [auth_ok htok hget hact hexp huser]
        simp
  · intro sessions users h t now s htok hget hact hts
    rw [main sessions users h t now s htok hget hact hts]
    rcases getDoc users s.userId with _ | u <;> simp

/-- C10 witness: a session with `isActive: "yes"` (a string, not the
boolean `false`) and `expiresAt: null` authenticates successfully even
at an arbitrarily late `now`. -/
theorem authGuard_malformed_session_passes_witness :
    authenticateToken
      [("t1", { userId := "u1", loginTime := JSVal.vNull,
                expiresAt := JSVal.vNull,
                isActive := JSVal.vStr "yes", logoutTime := JSVal.vUndefined })]
      [("u1", { email := "e@x", password_hash := "pw",
                is_new := JSVal.vBool false, user_role := JSVal.vNull,
                school_id := JSVal.vNull, updatedAt := JSVal.vNull,
                enrolled_classes := none })]
      (some "Bearer t1") 999999999999 =
      ((match getDoc
          [("u1", { email := "e@x", password_hash := "pw",
                    is_new := JSVal.vBool false, user_role := JSVal.vNull,
                    school_id := JSVal.vNull, updatedAt := JSVal.vNull,
                    enrolled_classes := none })] "u1" with
        | none => AuthResult.notFound "User not found."
        | some u => AuthResult.ok u "u1"),
       [("t1", { userId := "u1", loginTime := JSVal.vNull,
                 expiresAt := JSVal.vNull,
                 isActive := JSVal.vStr "yes",
                 logoutTime := JSVal.vUndefined })]) :=
  authGuard_malformed_session_passes.2.2
    [("t1", { userId := "u1", loginTime := JSVal.vNull,
              expiresAt := JSVal.vNull,
              isActive := JSVal.vStr "yes", logoutTime := JSVal.vUndefined })]
    [("u1", { email := "e@x", password_hash := "pw",
              is_new := JSVal.vBool false, user_role := JSVal.vNull,
              school_id := JSVal.vNull, updatedAt := JSVal.vNull,
              enrolled_classes := none })]
    (some "Bearer t1") "t1" 999999999999
    { userId := "u1", loginTime := JSVal.vNull,
      expiresAt := JSVal.vNull,
      isActive := JSVal.vStr "yes", logoutTime := JSVal.vUndefined }
    rfl rfl (by decide) (fun ms h => JSVal.noConfusion h)

/-- C1: after any successful login, the new session document is stored
under the returned token with `isActive: true`, and every other
session belonging to that user has an `isActive` different from the
boolean `true` — the new session is the unique active session for the
user, because `cleanupPreviousSessions` deactivated all previously
active ones before the single new session was written. -/
theorem login_unique_active_session :
    ∀ (users : UserStore) (sessions : SessionStore)
      (email password sessionToken : String) (now : Nat) (t : String) (e : Nat)
      (uid : String) (isNew : JSVal) (sessions2 : SessionStore),
      login users sessions email password sessionToken now =
        (.ok t e uid isNew, sessions2) →
      getDoc sessions2 t = some (newSessionDoc uid now) ∧
      (newSessionDoc uid now).isActive = JSVal.vBool true ∧
      ∀ k s, (k, s) ∈ sessions2 → k ≠ t → s.userId = uid →
        s.isActive ≠ JSVal.vBool true := by
  intro users sessions email password sessionToken now t e uid isNew sessions2 heq
  obtain ⟨-, -, user, -, -, ht, -, -, hst⟩ := login_ok_inv heq
  subst ht
  subst hst
  refine ⟨getDoc_setDoc_self _ _ _, rfl, ?_⟩
  intro k s hmem hk huser
  exact mem_cleanup_inactive (mem_setDoc_ne hmem hk) huser

/-- C1 witness: logging in while an earlier session of the same user
is still active leaves that session deactivated and the fresh token as
the only active session. -/
theorem login_unique_active_session_witness :
    getDoc
      (login
        [("u1", { email := "e@x", password_hash := "pw",
                  is_new := JSVal.vBool true, user_role := JSVal.vNull,
                  school_id := JSVal.vNull, updatedAt := JSVal.vNull,
                  enrolled_classes := none })]
        [("told", { userId := "u1", loginTime := JSVal.vTimestamp 1,
                    expiresAt := JSVal.vTimestamp 40,
                    isActive := JSVal.vBool true,
                    logoutTime := JSVal.vUndefined })]
        "e@x" "pw" "tnew" 50).2 "tnew" = some (newSessionDoc "u1" 50) :=
  (login_unique_active_session
    [("u1", { email := "e@x", password_hash := "pw",
              is_new := JSVal.vBool true, user_role := JSVal.vNull,
              school_id := JSVal.vNull, updatedAt := JSVal.vNull,
              enrolled_classes := none })]
    [("told", { userId := "u1", loginTime := JSVal.vTimestamp 1,
                expiresAt := JSVal.vTimestamp 40,
                isActive := JSVal.vBool true,
                logoutTime := JSVal.vUndefined })]
    "e@x" "pw" "tnew" 50 "tnew" (50 + SESSION_DURATION_MS) "u1"
    (JSVal.vBool true)
    (login
      [("u1", { email := "e@x", password_hash := "pw",
                is_new := JSVal.vBool true, user_role := JSVal.vNull,
                school_id := JSVal.vNull, updatedAt := JSVal.vNull,
                enrolled_classes := none })]
      [("told", { userId := "u1", loginTime := JSVal.vTimestamp 1,
                  expiresAt := JSVal.vTimestamp 40,
                  isActive := JSVal.vBool true,
                  logoutTime := JSVal.vUndefined })]
      "e@x" "pw" "tnew" 50).2
    rfl).1

/-- C6 counterexample: the deactivation batch and the new-session
write are two separate commits, not a single atomic multi-document
commit — a concrete successful login passes through an observable
intermediate session-store state (after `batch.commit()`, before
`set(...)`) that differs from both the initial and the final state, so
a crash between the two commits leaves it behind. -/
theorem login_atomic_commit_counterexample :
    loginSessionTrace
      [("u1", { email := "e@x", password_hash := "pw",
                is_new := JSVal.vBool true, user_role := JSVal.vNull,
                school_id := JSVal.vNull, updatedAt := JSVal.vNull,
                enrolled_classes := none })]
      [("told", { userId := "u1", loginTime := JSVal.vTimestamp 1,
                  expiresAt := JSVal.vTimestamp 40,
                  isActive := JSVal.vBool true,
                  logoutTime := JSVal.vUndefined })]
      "e@x" "pw" "tnew" 50 =
      [[("told", { userId := "u1", loginTime := JSVal.vTimestamp 1,
                   expiresAt := JSVal.vTimestamp 40,
                   isActive := JSVal.vBool true,
                   logoutTime := JSVal.vUndefined })],
       [("told", { userId := "u1", loginTime := JSVal.vTimestamp 1,
                   expiresAt := JSVal.vTimestamp 40,
                   isActive := JSVal.vBool false,
                   logoutTime := JSVal.vTimestamp 50 })],
       [("told", { userId := "u1", loginTime := JSVal.vTimestamp 1,
                   expiresAt := JSVal.vTimestamp 40,
                   isActive := JSVal.vBool false,
                   logoutTime := JSVal.vTimestamp 50 }),
        ("tnew", newSessionDoc "u1" 50)]] ∧
    ([("told", { userId := "u1", loginTime := JSVal.vTimestamp 1,
                 expiresAt := JSVal.vTimestamp 40,
                 isActive := JSVal.vBool false,
                 logoutTime := JSVal.vTimestamp 50 })] : SessionStore) ≠
      [("told", { userId := "u1", loginTime := JSVal.vTimestamp 1,
                  expiresAt := JSVal.vTimestamp 40,
                  isActive := JSVal.vBool true,
                  logoutTime := JSVal.vUndefined })] ∧
    ([("told", { userId := "u1", loginTime := JSVal.vTimestamp 1,
                 expiresAt := JSVal.vTimestamp 40,
                 isActive := JSVal.vBool false,
                 logoutTime := JSVal.vTimestamp 50 })] : SessionStore) ≠
      [("told", { userId := "u1", loginTime := JSVal.vTimestamp 1,
                  expiresAt := JSVal.vTimestamp 40,
                  isActive := JSVal.vBool false,
                  logoutTime := JSVal.vTimestamp 50 }),
       ("tnew", newSessionDoc "u1" 50)] :=
  ⟨rfl, by decide, by decide⟩

/-- C6 (amended): login commits in two steps — first the atomic
deactivation batch, then the new-session write — in that order; hence
when at most one session of the user is active initially and the fresh
token is unused, every intermediate state still has at most one active
session for the user, and no reachable state contains the new session
while an old session of the user is still active (a crash between the
commits can only leave the user with zero active sessions, never
two and never the new one before the old ones are cleared). -/
theorem login_commit_order_amended :
    ∀ (users : UserStore) (sessions : SessionStore)
      (email password sessionToken : String) (now : Nat) (t : String) (e : Nat)
      (uid : String) (isNew : JSVal) (sessions2 : SessionStore),
      login users sessions email password sessionToken now =
        (.ok t e uid isNew, sessions2) →
      countActive sessions uid ≤ 1 →
      getDoc sessions sessionToken = none →
      ∀ st ∈ loginSessionTrace users sessions email password sessionToken now,
        countActive st uid ≤ 1 ∧
        (∀ k s, (k, s) ∈ st → k ≠ sessionToken → s.userId = uid →
          s.isActive = JSVal.vBool true → getDoc st sessionToken = none) := by
  intro users sessions email password sessionToken now t e uid isNew sessions2
    heq hcount habs
  obtain ⟨hemail, hpassword, user, hfind, hpw, -, -, -, -⟩ := login_ok_inv heq
  have htrace : loginSessionTrace users sessions email password sessionToken now =
      [sessions, cleanupPreviousSessions now uid sessions,
       setDoc (cleanupPreviousSessions now uid sessions) sessionToken
         (newSessionDoc uid now)] := by
    unfold loginSessionTrace
    simp [hemail, hpassword, hfind, hpw]
  rw [htrace]
  intro st hst
  have hclean : getDoc (cleanupPreviousSessions now uid sessions) sessionToken =
      none := getDoc_cleanup_none habs
  rcases List.mem_cons.mp hst with h1 | hst
  · subst h1
    exact ⟨hcount, fun _ _ _ _ _ _ => habs⟩
  rcases List.mem_cons.mp hst with h2 | hst
  · subst h2
    refine ⟨by rw [countActive_cleanup]; omega, fun _ _ _ _ _ _ => hclean⟩
  rcases List.mem_cons.mp hst with h3 | hst
  · subst h3
    constructor
    · rw [setDoc_eq_append _ hclean, countActive_append_new, countActive_cleanup]
    · intro k s hmem hk huser hactive
      exact absurd hactive (mem_cleanup_inactive (mem_setDoc_ne hmem hk) huser)
  · exact absurd hst (List.not_mem_nil st)

/-- C6 amended witness: in the concrete two-commit login above, the
intermediate state (old session deactivated, new one not yet written)
has at most one active session for the user. -/
theorem login_commit_order_amended_witness :
    countActive
      [("told", { userId := "u1", loginTime := JSVal.vTimestamp 1,
                  expiresAt := JSVal.vTimestamp 40,
                  isActive := JSVal.vBool false,
                  logoutTime := JSVal.vTimestamp 50 })] "u1" ≤ 1 :=
  (login_commit_order_amended
    [("u1", { email := "e@x", password_hash := "pw",
              is_new := JSVal.vBool true, user_role := JSVal.vNull,
              school_id := JSVal.vNull, updatedAt := JSVal.vNull,
              enrolled_classes := none })]
    [("told", { userId := "u1", loginTime := JSVal.vTimestamp 1,
                expiresAt := JSVal.vTimestamp 40,
                isActive := JSVal.vBool true,
                logoutTime := JSVal.vUndefined })]
    "e@x" "pw" "tnew" 50 "tnew" (50 + SESSION_DURATION_MS) "u1"
    (JSVal.vBool true)
    (login
      [("u1", { email := "e@x", password_hash := "pw",
                is_new := JSVal.vBool true, user_role := JSVal.vNull,
                school_id := JSVal.vNull, updatedAt := JSVal.vNull,
                enrolled_classes := none })]
      [("told", { userId := "u1", loginTime := JSVal.vTimestamp 1,
                  expiresAt := JSVal.vTimestamp 40,
                  isActive := JSVal.vBool true,
                  logoutTime := JSVal.vUndefined })]
      "e@x" "pw" "tnew" 50).2
    rfl (by decide) rfl
    [("told", { userId := "u1", loginTime := JSVal.vTimestamp 1,
                expiresAt := JSVal.vTimestamp 40,
                isActive := JSVal.vBool false,
                logoutTime := JSVal.vTimestamp 50 })]
    (by decide)).1

/-- C7 counterexample: an attempt with the user's correct email and
the (wrong) empty-string password — a password different from the
stored credential `"secret"` — is answered with a 400 `BadRequest`
(the `if (!password)` falsiness guard fires), not with the 401
`Unauthorized` the claim requires for every wrong password. -/
theorem login_wrong_password_counterexample :
    login
      [("u1", { email := "e@x", password_hash := "secret",
                is_new := JSVal.vBool false, user_role := JSVal.vNull,
                school_id := JSVal.vNull, updatedAt := JSVal.vNull,
                enrolled_classes := none })]
      [] "e@x" "" "tnew" 50 =
      (.badRequest "Email and password are required.", []) ∧
    "" ≠ "secret" ∧
    ∀ msg, LoginResult.badRequest "Email and password are required." ≠
      LoginResult.unauthorized msg :=
  ⟨rfl, by decide, fun _ h => LoginResult.noConfusion h⟩

/-- C7 (amended): an attempt with the user's correct email and a
non-empty password different from the stored credential is answered
with 401 `Unauthorized` and the session store is untouched; an
empty (falsy) password is instead rejected up front with a 400
`BadRequest`, which also leaves the session store untouched. -/
theorem login_wrong_password_amended :
    (∀ (users : UserStore) (sessions : SessionStore)
      (email password sessionToken : String) (now : Nat) (uid : String)
      (user : UserDoc),
      email ≠ "" → password ≠ "" →
      findUserByEmail users email = some (uid, user) →
      user.password_hash ≠ password →
      login users sessions email password sessionToken now =
        (.unauthorized "Invalid email or password.", sessions)) ∧
    (∀ (users : UserStore) (sessions : SessionStore)
      (email sessionToken : String) (now : Nat),
      login users sessions email "" sessionToken now =
        (.badRequest "Email and password are required.", sessions)) := by
  constructor
  · intro users sessions email password sessionToken now uid user
      hemail hpassword hfind hpw
    simp [login, hemail, hpassword, hfind, hpw]
  · intro users sessions email sessionToken now
    simp [login]

/-- C7 witness: with stored credential `"pw"` and supplied password
`"wrong"`, login answers 401 and returns the session store unchanged. -/
theorem login_wrong_password_amended_witness :
    login
      [("u1", { email := "e@x", password_hash := "pw",
                is_new := JSVal.vBool false, user_role := JSVal.vNull,
                school_id := JSVal.vNull, updatedAt := JSVal.vNull,
                enrolled_classes := none })]
      [("told", { userId := "u1", loginTime := JSVal.vTimestamp 1,
                  expiresAt := JSVal.vTimestamp 40,
                  isActive := JSVal.vBool true,
                  logoutTime := JSVal.vUndefined })]
      "e@x" "wrong" "tnew" 50 =
      (.unauthorized "Invalid email or password.",
       [("told", { userId := "u1", loginTime := JSVal.vTimestamp 1,
                   expiresAt := JSVal.vTimestamp 40,
                   isActive := JSVal.vBool true,
                   logoutTime := JSVal.vUndefined })]) :=
  login_wrong_password_amended.1
    [("u1", { email := "e@x", password_hash := "pw",
              is_new := JSVal.vBool false, user_role := JSVal.vNull,
              school_id := JSVal.vNull, updatedAt := JSVal.vNull,
              enrolled_classes := none })]
    [("told", { userId := "u1", loginTime := JSVal.vTimestamp 1,
                expiresAt := JSVal.vTimestamp 40,
                isActive := JSVal.vBool true,
                logoutTime := JSVal.vUndefined })]
    "e@x" "wrong" "tnew" 50 "u1"
    { email := "e@x", password_hash := "pw",
      is_new := JSVal.vBool false, user_role := JSVal.vNull,
      school_id := JSVal.vNull, updatedAt := JSVal.vNull,
      enrolled_classes := none }
    (by decide) (by decide) rfl (by decide)

/-- C5 counterexample: `POST /logout` runs the `authenticateToken`
middleware before the handler, so with no session stored under the
presented token the caller receives a 403 `guardFail`, not the
success-shaped response the claim promises for every token. -/
theorem logout_fail_open_counterexample :
    logoutRoute [] [] (some "Bearer ghost") 0 =
      (.guardFail (.forbidden "Invalid token."), []) ∧
    ∀ msg, LogoutResult.guardFail (AuthResult.forbidden "Invalid token.") ≠
      LogoutResult.success msg :=
  ⟨rfl, fun _ h => LogoutResult.noConfusion h⟩

/-- C5 (amended): logout reports success whenever the guard admits the
token, the handler itself is fail-open (even a throwing session
update is swallowed into a success-shaped 200), but a token with no
stored session — or an already-inactive session — is rejected by the
guard with 403 before the logout handler runs. -/
theorem logout_amended :
    (∀ (sessions : SessionStore) (users : UserStore) (h : Option String)
      (now : Nat) (u : UserDoc) (uid : String) (st2 : SessionStore),
      authenticateToken sessions users h now = (.ok u uid, st2) →
      (logoutRoute sessions users h now).1 =
        LogoutResult.success "Logout successful. Session invalidated.") ∧
    (∀ upd : Except Unit Unit, ∃ msg, logoutHandlerE upd = .success msg) ∧
    (∀ (sessions : SessionStore) (users : UserStore) (h : Option String)
      (t : String) (now : Nat),
      tokenFromHeader h = some t → getDoc sessions t = none →
      logoutRoute sessions users h now =
        (.guardFail (.forbidden "Invalid token."), sessions)) ∧
    (∀ (sessions : SessionStore) (users : UserStore) (h : Option String)
      (t : String) (now : Nat) (s : SessionDoc),
      tokenFromHeader h = some t → getDoc sessions t = some s →
      s.isActive = JSVal.vBool false →
      logoutRoute sessions users h now =
        (.guardFail (.forbidden "Session expired or invalidated."), sessions)) := by
  refine ⟨?_, ?_, ?_, ?_⟩
  · intro sessions users h now u uid st2 heq
    cases htok : tokenFromHeader h <;>
      simp [logoutRoute, heq, htok, logoutHandlerE]
  · intro upd
    cases upd
    · exact ⟨_, rfl⟩
    · exact ⟨_, rfl⟩
  · intro sessions users h t now htok hget
    simp [logoutRoute, auth_invalidToken htok hget]
  · intro sessions users h t now s htok hget hact
    simp [logoutRoute, auth_inactive htok hget hact]

/-- C5 witness: a token whose session is already inactive is answered
with 403 by the guard, the store unchanged. -/
theorem logout_amended_witness :
    logoutRoute
      [("t1", { userId := "u1", loginTime := JSVal.vNull,
                expiresAt := JSVal.vTimestamp 100,
                isActive := JSVal.vBool false,
                logoutTime := JSVal.vTimestamp 5 })]
      [] (some "Bearer t1") 10 =
      (.guardFail (.forbidden "Session expired or invalidated."),
       [("t1", { userId := "u1", loginTime := JSVal.vNull,
                 expiresAt := JSVal.vTimestamp 100,
                 isActive := JSVal.vBool false,
                 logoutTime := JSVal.vTimestamp 5 })]) :=
  logout_amended.2.2.2
    [("t1", { userId := "u1", loginTime := JSVal.vNull,
              expiresAt := JSVal.vTimestamp 100,
              isActive := JSVal.vBool false,
              logoutTime := JSVal.vTimestamp 5 })]
    [] (some "Bearer t1") "t1" 10
    { userId := "u1", loginTime := JSVal.vNull,
      expiresAt := JSVal.vTimestamp 100,
      isActive := JSVal.vBool false, logoutTime := JSVal.vTimestamp 5 }
    rfl rfl rfl

/-- C9 counterexample: with a valid session, a reset request whose new
credential is the empty string is rejected with a 400 `BadRequest` and
nothing is overwritten — the user's credential field keeps its old
value and the first-login flag is not cleared, contradicting the
claim's "for every new credential, resetPassword overwrites the
credential field and clears the first-login flag". -/
theorem resetPassword_counterexample :
    resetPasswordRoute
      [("t1", { userId := "u1", loginTime := JSVal.vNull,
                expiresAt := JSVal.vTimestamp 100,
                isActive := JSVal.vBool true, logoutTime := JSVal.vUndefined })]
      [("u1", { email := "e@x", password_hash := "old",
                is_new := JSVal.vBool true, user_role := JSVal.vNull,
                school_id := JSVal.vNull, updatedAt := JSVal.vNull,
                enrolled_classes := none })]
      (some "Bearer t1") "" 10 =
      (.badRequest "newPassword is required.",
       [("t1", { userId := "u1", loginTime := JSVal.vNull,
                 expiresAt := JSVal.vTimestamp 100,
                 isActive := JSVal.vBool true,
                 logoutTime := JSVal.vUndefined })],
       [("u1", { email := "e@x", password_hash := "old",
                 is_new := JSVal.vBool true, user_role := JSVal.vNull,
                 school_id := JSVal.vNull, updatedAt := JSVal.vNull,
                 enrolled_classes := none })]) ∧
    ∀ uid, ResetResult.badRequest "newPassword is required." ≠
      ResetResult.success uid :=
  ⟨rfl, fun _ h => ResetResult.noConfusion h⟩

/-- C9 (amended): every *successful* password reset (which requires a
non-empty new credential) overwrites the authenticated user's
credential field, clears the first-login flag (and stamps
`updatedAt`), touches no other user, and leaves every session document
unchanged; an empty new credential changes no user document either. -/
theorem resetPassword_frame_amended :
    (∀ (sessions : SessionStore) (users : UserStore) (h : Option String)
      (newPassword : String) (now : Nat) (uid : String)
      (sessions2 : SessionStore) (users2 : UserStore),
      resetPasswordRoute sessions users h newPassword now =
        (.success uid, sessions2, users2) →
      newPassword ≠ "" ∧
      sessions2 = sessions ∧
      getDoc users2 uid = (getDoc users uid).map (fun u =>
        { u with password_hash := newPassword,
                 updatedAt := JSVal.vTimestamp now,
                 is_new := JSVal.vBool false }) ∧
      (∀ k, k ≠ uid → getDoc users2 k = getDoc users k)) ∧
    (∀ (sessions : SessionStore) (users : UserStore) (h : Option String)
      (now : Nat),
      (resetPasswordRoute sessions users h "" now).2.2 = users) := by
  constructor
  · intro sessions users h newPassword now uid sessions2 users2 heq
    rcases hauth : authenticateToken sessions users h now with ⟨r, st2⟩
    rcases r with m | m | m | m | ⟨u, i⟩ <;>
      simp only [resetPasswordRoute, hauth] at heq
    · simp at heq
    · simp at heq
    · simp at heq
    · simp at heq
    · by_cases hnp : newPassword = ""
      · rw [if_pos hnp] at heq
        simp at heq
      · rw [if_neg hnp] at heq
        have h1 := congrArg Prod.fst heq
        have h2 := congrArg (fun p => p.2.1) heq
        have h3 := congrArg (fun p => p.2.2) heq
        simp only [Prod.fst, Prod.snd, ResetResult.success.injEq] at h1 h2 h3
        subst h1
        obtain ⟨hsess, -⟩ := auth_ok_inv hauth
        refine ⟨hnp, h2.symm.trans hsess, ?_, ?_⟩
        · rw [← h3, getDoc_updateDoc_self]
        · intro k hk
          rw [← h3, getDoc_updateDoc_ne _ _ hk]
  · intro sessions users h now
    rcases hauth : authenticateToken sessions users h now with ⟨r, st2⟩
    rcases r with m | m | m | m | ⟨u, i⟩ <;>
      simp [resetPasswordRoute, hauth]

/-- C9 witness: a successful reset with new credential `"npw"` leaves
the authenticated user's document overwritten (credential `"npw"`,
first-login flag false). -/
theorem resetPassword_frame_amended_witness :
    getDoc
      (resetPasswordRoute
        [("t1", { userId := "u1", loginTime := JSVal.vNull,
                  expiresAt := JSVal.vTimestamp 100,
                  isActive := JSVal.vBool true,
                  logoutTime := JSVal.vUndefined })]
        [("u1", { email := "e@x", password_hash := "old",
                  is_new := JSVal.vBool true, user_role := JSVal.vNull,
                  school_id := JSVal.vNull, updatedAt := JSVal.vNull,
                  enrolled_classes := none })]
        (some "Bearer t1") "npw" 10).2.2 "u1" =
      (getDoc
        ([("u1", { email := "e@x", password_hash := "old",
                   is_new := JSVal.vBool true, user_role := JSVal.vNull,
                   school_id := JSVal.vNull, updatedAt := JSVal.vNull,
                   enrolled_classes := none })] : UserStore) "u1").map (fun u =>
        { u with password_hash := "npw",
                 updatedAt := JSVal.vTimestamp 10,
                 is_new := JSVal.vBool false }) :=
  (resetPassword_frame_amended.1
    [("t1", { userId := "u1", loginTime := JSVal.vNull,
              expiresAt := JSVal.vTimestamp 100,
              isActive := JSVal.vBool true, logoutTime := JSVal.vUndefined })]
    [("u1", { email := "e@x", password_hash := "old",
              is_new := JSVal.vBool true, user_role := JSVal.vNull,
              school_id := JSVal.vNull, updatedAt := JSVal.vNull,
              enrolled_classes := none })]
    (some "Bearer t1") "npw" 10 "u1"
    (resetPasswordRoute
      [("t1", { userId := "u1", loginTime := JSVal.vNull,
                expiresAt := JSVal.vTimestamp 100,
                isActive := JSVal.vBool true,
                logoutTime := JSVal.vUndefined })]
      [("u1", { email := "e@x", password_hash := "old",
                is_new := JSVal.vBool true, user_role := JSVal.vNull,
                school_id := JSVal.vNull, updatedAt := JSVal.vNull,
                enrolled_classes := none })]
      (some "Bearer t1") "npw" 10).2.1
    (resetPasswordRoute
      [("t1", { userId := "u1", loginTime := JSVal.vNull,
                expiresAt := JSVal.vTimestamp 100,
                isActive := JSVal.vBool true,
                logoutTime := JSVal.vUndefined })]
      [("u1", { email := "e@x", password_hash := "old",
                is_new := JSVal.vBool true, user_role := JSVal.vNull,
                school_id := JSVal.vNull, updatedAt := JSVal.vNull,
                enrolled_classes := none })]
      (some "Bearer t1") "npw" 10).2.2
    rfl).2.2.1

theorem findUserByEmail_setUserCredential (users : UserStore)
    (uid c email : String) :
    findUserByEmail (setUserCredential users uid c) email =
      (findUserByEmail users email).map (fun p =>
        (p.1, if p.1 = uid then { p.2 with password_hash := c } else p.2)) := by
  unfold findUserByEmail setUserCredential updateDoc
  induction users with
  | nil => rfl
  | cons p rest ih =>
    by_cases he : p.2.email = email
    · by_cases hk : p.1 = uid <;>
        simp [List.find?_cons, hk, he]
    · by_cases hk : p.1 = uid <;>
        simp only [List.map_cons, List.find?_cons, hk, if_pos, if_neg] <;>
        simp [he, ih]

/-- C8: the stored credential never reaches a caller — the `/profile`
response is unchanged under any replacement of the stored credential
(the `password_hash` field is stripped), stripping is insensitive to
the credential value, a successful login response consists of exactly
the token, the expiry and the `{id, is_new}` summary, and the login
response is likewise unchanged when the stored credential (and the
matching supplied password) is replaced. -/
theorem credential_never_returned :
    (∀ (sessions : SessionStore) (users : UserStore) (h : Option String)
      (now : Nat) (uid c : String),
      (profileRoute sessions (setUserCredential users uid c) h now).1 =
        (profileRoute sessions users h now).1) ∧
    (∀ (u : UserDoc) (c : String),
      stripCredential { u with password_hash := c } = stripCredential u) ∧
    (∀ (users : UserStore) (sessions : SessionStore)
      (email password sessionToken : String) (now : Nat) (t : String) (e : Nat)
      (uid : String) (isNew : JSVal) (sessions2 : SessionStore),
      login users sessions email password sessionToken now =
        (.ok t e uid isNew, sessions2) →
      ∃ user, findUserByEmail users email = some (uid, user) ∧
        t = sessionToken ∧ e = now + SESSION_DURATION_MS ∧ isNew = user.is_new) ∧
    (∀ (users : UserStore) (sessions : SessionStore)
      (email sessionToken : String) (now : Nat) (uid : String) (user : UserDoc)
      (c c' : String),
      findUserByEmail users email = some (uid, user) →
      c ≠ "" → c' ≠ "" → email ≠ "" →
      (login (setUserCredential users uid c) sessions email c
        sessionToken now).1 =
      (login (setUserCredential users uid c') sessions email c'
        sessionToken now).1) := by
  refine ⟨?_, fun u c => rfl, ?_, ?_⟩
  · intro sessions users h now uid c
    simp only [profileRoute]
    rw [auth_setUserCredential]
    rcases hg : authenticateToken sessions users h now with ⟨r, st2⟩
    rcases r with m | m | m | m | ⟨u, i⟩ <;> simp [credTweak]
    by_cases hi : i = uid <;> simp [hi, stripCredential]
  · intro users sessions email password sessionToken now t e uid isNew
      sessions2 heq
    obtain ⟨-, -, user, hfind, -, ht, he, hnew, -⟩ := login_ok_inv heq
    exact ⟨user, hfind, ht, he, hnew⟩
  · intro users sessions email sessionToken now uid user c c' hfind hc hc' hemail
    have hf := findUserByEmail_setUserCredential users uid c email
    have hf' := findUserByEmail_setUserCredential users uid c' email
    rw [hfind] at hf hf'
    simp only [Option.map_some] at hf hf'
    simp [login, hemail, hc, hc', hf, hf']

/-- C8 witness: two logins differing only in the stored credential
(and the matching supplied password) receive identical responses —
the response carries no trace of the credential. -/
theorem credential_never_returned_witness :
    (login
      (setUserCredential
        [("u1", { email := "e@x", password_hash := "pw",
                  is_new := JSVal.vBool true, user_role := JSVal.vNull,
                  school_id := JSVal.vNull, updatedAt := JSVal.vNull,
                  enrolled_classes := none })] "u1" "pwA")
      [] "e@x" "pwA" "tnew" 5).1 =
    (login
      (setUserCredential
        [("u1", { email := "e@x", password_hash := "pw",
                  is_new := JSVal.vBool true, user_role := JSVal.vNull,
                  school_id := JSVal.vNull, updatedAt := JSVal.vNull,
                  enrolled_classes := none })] "u1" "pwB")
      [] "e@x" "pwB" "tnew" 5).1 :=
  credential_never_returned.2.2.2
    [("u1", { email := "e@x", password_hash := "pw",
              is_new := JSVal.vBool true, user_role := JSVal.vNull,
              school_id := JSVal.vNull, updatedAt := JSVal.vNull,
              enrolled_classes := none })]
    [] "e@x" "tnew" 5 "u1"
    { email := "e@x", password_hash := "pw",
      is_new := JSVal.vBool true, user_role := JSVal.vNull,
      school_id := JSVal.vNull, updatedAt := JSVal.vNull,
      enrolled_classes := none }
    "pwA" "pwB" rfl (by decide) (by decide) (by decide)
